import Mathlib

/-!
Verification of the etcd v3 HTTP/JSON gateway driver (patroni/dcs/etcd3.py).

The Python source is shallowly embedded: byte strings become `List Nat`
(each element a byte value), JSON documents become the `JsonE` inductive,
network calls become explicit oracle functions passed as arguments, and
Python exceptions become explicit error values.  Each definition mirrors
one function of the source file.
-/

/-- JSON documents as sent to and received from the gateway.  Objects keep
their fields in insertion order, mirroring Python dict literals. -/
inductive JsonE where
  | null : JsonE
  | str (s : String) : JsonE
  | num (n : Int) : JsonE
  | boolean (b : Bool) : JsonE
  | arr (xs : List JsonE) : JsonE
  | obj (fs : List (String × JsonE)) : JsonE

/-- Python `dict.get(k)`: the field value, or null (None) when absent or when
the receiver is not an object. -/
def JsonE.get : JsonE → String → JsonE
  | JsonE.obj fs, k =>
      match fs.find? (fun p => p.1 == k) with
      | some p => p.2
      | Option.none => JsonE.null
  | _, _ => JsonE.null

/-- The base64 alphabet used by `base64.b64encode`. -/
def base64Alphabet : List Char :=
  [ 'A', 'B', 'C', 'D', 'E', 'F', 'G', 'H', 'I', 'J', 'K', 'L', 'M',
    'N', 'O', 'P', 'Q', 'R', 'S', 'T', 'U', 'V', 'W', 'X', 'Y', 'Z',
    'a', 'b', 'c', 'd', 'e', 'f', 'g', 'h', 'i', 'j', 'k', 'l', 'm',
    'n', 'o', 'p', 'q', 'r', 's', 't', 'u', 'v', 'w', 'x', 'y', 'z',
    '0', '1', '2', '3', '4', '5', '6', '7', '8', '9', '+', '/' ]

/-- One 6-bit group to its base64 character. -/
def base64Char (n : Nat) : Char := base64Alphabet.getD n 'A'

/-- Standard base64 of a byte sequence, grouped three bytes at a time with
padding, as `base64.b64encode` produces. -/
def base64EncodeList : List Nat → List Char
  | [] => []
  | [a] =>
      [base64Char (a / 4), base64Char (a % 4 * 16), '=', '=']
  | [a, b] =>
      [base64Char (a / 4), base64Char (a % 4 * 16 + b / 16),
       base64Char (b % 16 * 4), '=']
  | a :: b :: c :: rest =>
      base64Char (a / 4) :: base64Char (a % 4 * 16 + b / 16) ::
      base64Char (b % 16 * 4 + c / 64) :: base64Char (c % 64) ::
      base64EncodeList rest

/-- `Etcd3Client.base64_encode`: the base64 text of a byte string. -/
def base64_encode (v : List Nat) : String :=
  String.mk (base64EncodeList v)

/-- Python truthiness of an optional integer: `None` and `0` are falsy. -/
def truthy : Option Nat → Bool
  | some n => n != 0
  | Option.none => false

/-- Python truthiness of an optional `Int` (used for the `lease` argument of
`Etcd3Client.put`, where `if lease:` guards adding the field). -/
def truthyInt : Option Int → Bool
  | some n => n != 0
  | Option.none => false

/-- The `fields` dict built at the top of `Etcd3Client.put`: base64 key and
value, plus the lease when it is truthy. -/
def putFields (key value : List Nat) (lease : Option Int) : List (String × JsonE) :=
  let fields0 := [("key", JsonE.str (base64_encode key)),
                  ("value", JsonE.str (base64_encode value))]
  if truthyInt lease then fields0 ++ [("lease", JsonE.num (lease.getD 0))]
  else fields0

/-- `Etcd3Client.put(key, value, lease, create_revision, mod_revision)`.
`callRpc` stands for `self.call_rpc`: it maps a method path and a JSON body
to the decoded JSON response.  A transaction result is projected to its
`succeeded` field exactly as the source does with `.get` at the end. -/
def Etcd3Client.put (callRpc : String → JsonE → JsonE)
    (key value : List Nat) (lease : Option Int)
    (create_revision mod_revision : Option Int) : JsonE :=
  let fields := putFields key value lease
  match create_revision with
  | some c =>
      let compare := [("target", JsonE.str "CREATE"),
                      ("create_revision", JsonE.num c),
                      ("key", JsonE.str (base64_encode key))]
      (callRpc "/kv/txn"
        (JsonE.obj [("compare", JsonE.arr [JsonE.obj compare]),
                    ("success", JsonE.arr [JsonE.obj [("request_put", JsonE.obj fields)]])])).get
        "succeeded"
  | Option.none =>
      match mod_revision with
      | some m =>
          let compare := [("target", JsonE.str "MOD"),
                          ("mod_revision", JsonE.num m),
                          ("key", JsonE.str (base64_encode key))]
          (callRpc "/kv/txn"
            (JsonE.obj [("compare", JsonE.arr [JsonE.obj compare]),
                        ("success", JsonE.arr [JsonE.obj [("request_put", JsonE.obj fields)]])])).get
            "succeeded"
      | Option.none => callRpc "/kv/put" (JsonE.obj fields)

/-- Claim C1: when `create_revision` is given, `put` issues a single
`/kv/txn` request whose one comparison requires the key create-revision to
equal the given value and whose success branch holds the put, and returns
the transaction succeeded flag; when neither `create_revision` nor
`mod_revision` is given, it issues a plain `/kv/put` and returns the raw
put result. -/
theorem put_create_revision_txn_and_plain_put :
    (∀ (callRpc : String → JsonE → JsonE) (key value : List Nat)
        (lease : Option Int) (c : Int) (mod_revision : Option Int),
      Etcd3Client.put callRpc key value lease (some c) mod_revision =
        (callRpc "/kv/txn"
          (JsonE.obj
            [("compare", JsonE.arr [JsonE.obj
                [("target", JsonE.str "CREATE"),
                 ("create_revision", JsonE.num c),
                 ("key", JsonE.str (base64_encode key))]]),
             ("success", JsonE.arr [JsonE.obj
                [("request_put", JsonE.obj (putFields key value lease))]])])).get
          "succeeded") ∧
    (∀ (callRpc : String → JsonE → JsonE) (key value : List Nat)
        (lease : Option Int),
      Etcd3Client.put callRpc key value lease Option.none Option.none =
        callRpc "/kv/put" (JsonE.obj (putFields key value lease))) := by
  constructor
  · intro callRpc key value lease c mod_revision
    rfl
  · intro callRpc key value lease
    rfl

/-- Python runtime errors surfaced by the embedded fragments. -/
inductive PyErr where
  | indexError : PyErr
  | valueError : PyErr
  | attributeError : PyErr
deriving DecidableEq

/-- `Etcd3Client.increment_last_byte`: `v = bytearray(v); v[-1] += 1`.
Indexing an empty byte string raises IndexError; storing a byte value of 256
back into the bytearray raises ValueError (bytes must lie in range(0, 256)). -/
def increment_last_byte (v : List Nat) : Except PyErr (List Nat) :=
  match v.getLast? with
  | Option.none => Except.error PyErr.indexError
  | some b =>
      if b + 1 < 256 then Except.ok (v.dropLast ++ [b + 1])
      else Except.error PyErr.valueError

/-- Claim C2, counterexample: on a key whose last byte is 0xFF the claim
says the result is the key with that byte wrapped to zero, but
`increment_last_byte` raises ValueError instead of returning at all. -/
theorem increment_last_byte_no_wrap :
    increment_last_byte [255] ≠ Except.ok [0] ∧
    increment_last_byte [255] = Except.error PyErr.valueError := by
  constructor
  · intro h
    simp [increment_last_byte] at h
  · rfl

/-- Claim C2, amended: for every key whose last byte is below 0xFF,
`increment_last_byte` returns the key with the last byte incremented by one
and all other bytes unchanged; for every key whose last byte is 0xFF the
call fails with ValueError (no wrapped result is produced). -/
theorem increment_last_byte_spec :
    (∀ (p : List Nat) (b : Nat), b < 255 →
      increment_last_byte (p ++ [b]) = Except.ok (p ++ [b + 1])) ∧
    (∀ (p : List Nat),
      increment_last_byte (p ++ [255]) = Except.error PyErr.valueError) := by
  constructor
  · intro p b hb
    simp [increment_last_byte, List.getLast?_concat, List.dropLast_concat]
    omega
  · intro p
    simp [increment_last_byte, List.getLast?_concat]

/-- Witness for the amended C2 theorem at concrete keys. -/
theorem increment_last_byte_spec_witness :
    increment_last_byte [107, 101, 121] = Except.ok [107, 101, 122] ∧
    increment_last_byte [107, 255] = Except.error PyErr.valueError :=
  ⟨increment_last_byte_spec.1 [107, 101] 121 (by decide),
   increment_last_byte_spec.2 [107]⟩

/-- One subclass of `Etcd3ClientError`: its class name, the name of the
class it derives from, and its own (non-inherited) `code` and `error`
class attributes. -/
structure ErrClass where
  name : String
  parent : String
  codeAttr : Option Int
  errorAttr : Option String
deriving DecidableEq, Repr

/-- Every subclass of `Etcd3ClientError` declared in the source, in source
order, with its base class and its own class attributes. -/
def etcd3ErrorClasses : List ErrClass :=
  [ ⟨"Unknown", "Etcd3ClientError", some 2, Option.none⟩,
    ⟨"InvalidArgument", "Etcd3ClientError", some 3, Option.none⟩,
    ⟨"DeadlineExceeded", "Etcd3ClientError", some 4, some "context deadline exceeded"⟩,
    ⟨"NotFound", "Etcd3ClientError", some 5, Option.none⟩,
    ⟨"FailedPrecondition", "Etcd3ClientError", some 9, Option.none⟩,
    ⟨"OutOfRange", "Etcd3ClientError", some 11, Option.none⟩,
    ⟨"Unavailable", "Etcd3ClientError", some 14, Option.none⟩,
    ⟨"EmptyKey", "InvalidArgument", Option.none, some "etcdserver: key is not provided"⟩,
    ⟨"KeyNotFound", "InvalidArgument", Option.none, some "etcdserver: key not found"⟩,
    ⟨"ValueProvided", "InvalidArgument", Option.none, some "etcdserver: value is provided"⟩,
    ⟨"LeaseProvided", "InvalidArgument", Option.none, some "etcdserver: lease is provided"⟩,
    ⟨"TooManyOps", "InvalidArgument", Option.none, some "etcdserver: too many operations in txn request"⟩,
    ⟨"DuplicateKey", "InvalidArgument", Option.none, some "etcdserver: duplicate key given in txn request"⟩,
    ⟨"Compacted", "OutOfRange", Option.none, some "etcdserver: mvcc: required revision has been compacted"⟩,
    ⟨"FutureRev", "OutOfRange", Option.none, some "etcdserver: mvcc: required revision is a future revision"⟩,
    ⟨"NoSpace", "Etcd3ClientError", some 8, some "etcdserver: mvcc: database space exceeded"⟩,
    ⟨"LeaseNotFound", "NotFound", Option.none, some "etcdserver: requested lease not found"⟩,
    ⟨"LeaseExist", "FailedPrecondition", Option.none, some "etcdserver: lease already exists"⟩,
    ⟨"LeaseTTLTooLarge", "OutOfRange", Option.none, some "etcdserver: too large lease TTL"⟩,
    ⟨"MemberExist", "FailedPrecondition", Option.none, some "etcdserver: member ID already exist"⟩,
    ⟨"PeerURLExist", "FailedPrecondition", Option.none, some "etcdserver: Peer URLs already exists"⟩,
    ⟨"MemberNotEnoughStarted", "FailedPrecondition", Option.none,
      some "etcdserver: re-configuration failed due to not enough started members"⟩,
    ⟨"MemberBadURLs", "InvalidArgument", Option.none, some "etcdserver: given member URLs are invalid"⟩,
    ⟨"MemberNotFound", "NotFound", Option.none, some "etcdserver: member not found"⟩,
    ⟨"MemberNotLearner", "FailedPrecondition", Option.none, some "etcdserver: can only promote a learner member"⟩,
    ⟨"MemberLearnerNotReady", "FailedPrecondition", Option.none,
      some "etcdserver: can only promote a learner member which is in sync with leader"⟩,
    ⟨"TooManyLearners", "FailedPrecondition", Option.none, some "etcdserver: too many learner members in cluster"⟩,
    ⟨"RequestTooLarge", "InvalidArgument", Option.none, some "etcdserver: request is too large"⟩,
    ⟨"TooManyRequests", "Etcd3ClientError", some 8, some "etcdserver: too many requests"⟩,
    ⟨"RootUserNotExist", "FailedPrecondition", Option.none, some "etcdserver: root user does not exist"⟩,
    ⟨"RootRoleNotExist", "FailedPrecondition", Option.none, some "etcdserver: root user does not have root role"⟩,
    ⟨"UserAlreadyExist", "FailedPrecondition", Option.none, some "etcdserver: user name already exists"⟩,
    ⟨"UserEmpty", "InvalidArgument", Option.none, some "etcdserver: user name is empty"⟩,
    ⟨"UserNotFound", "FailedPrecondition", Option.none, some "etcdserver: user name not found"⟩,
    ⟨"RoleAlreadyExist", "FailedPrecondition", Option.none, some "etcdserver: role name already exists"⟩,
    ⟨"RoleNotFound", "FailedPrecondition", Option.none, some "etcdserver: role name not found"⟩,
    ⟨"RoleEmpty", "InvalidArgument", Option.none, some "etcdserver: role name is empty"⟩,
    ⟨"AuthFailed", "InvalidArgument", Option.none,
      some "etcdserver: authentication failed, invalid user ID or password"⟩,
    ⟨"PermissionDenied", "Etcd3ClientError", some 7, some "etcdserver: permission denied"⟩,
    ⟨"RoleNotGranted", "FailedPrecondition", Option.none, some "etcdserver: role is not granted to the user"⟩,
    ⟨"PermissionNotGranted", "FailedPrecondition", Option.none,
      some "etcdserver: permission is not granted to the role"⟩,
    ⟨"AuthNotEnabled", "FailedPrecondition", Option.none, some "etcdserver: authentication is not enabled"⟩,
    ⟨"InvalidAuthToken", "Etcd3ClientError", some 16, some "etcdserver: invalid auth token"⟩,
    ⟨"InvalidAuthMgmt", "InvalidArgument", Option.none, some "etcdserver: invalid auth management"⟩,
    ⟨"NoLeader", "Unavailable", Option.none, some "etcdserver: no leader"⟩,
    ⟨"NotLeader", "FailedPrecondition", Option.none, some "etcdserver: not leader"⟩,
    ⟨"LeaderChanged", "Unavailable", Option.none, some "etcdserver: leader changed"⟩,
    ⟨"NotCapable", "Unavailable", Option.none, some "etcdserver: not capable"⟩,
    ⟨"Stopped", "Unavailable", Option.none, some "etcdserver: server stopped"⟩,
    ⟨"Timeout", "Unavailable", Option.none, some "etcdserver: request timed out"⟩,
    ⟨"TimeoutDueToLeaderFail", "Unavailable", Option.none,
      some "etcdserver: request timed out, possibly due to previous leader failure"⟩,
    ⟨"TimeoutDueToConnectionLost", "Unavailable", Option.none,
      some "etcdserver: request timed out, possibly due to connection lost"⟩,
    ⟨"Unhealthy", "Unavailable", Option.none, some "etcdserver: unhealthy cluster"⟩,
    ⟨"Corrupt", "Etcd3ClientError", some 15, some "etcdserver: corrupt cluster"⟩,
    ⟨"BadLeaderTransferee", "FailedPrecondition", Option.none, some "etcdserver: bad leader transferee"⟩ ]

/-- Looks up a class by name among the declared subclasses. -/
def findErrClass (n : String) : Option ErrClass :=
  etcd3ErrorClasses.find? (fun c => c.name == n)

/-- The `code` attribute a class exposes, following Python attribute
inheritance up the base-class chain (the fuel bounds the chain length; the
hierarchy is at most three classes deep). -/
def resolvedCode : Nat → ErrClass → Option Int
  | 0, _ => Option.none
  | fuel + 1, c =>
      match c.codeAttr with
      | some k => some k
      | Option.none =>
          match findErrClass c.parent with
          | some p => resolvedCode fuel p
          | Option.none => Option.none

/-- The `error` attribute a class exposes, following Python attribute
inheritance up the base-class chain. -/
def resolvedError : Nat → ErrClass → Option String
  | 0, _ => Option.none
  | fuel + 1, c =>
      match c.errorAttr with
      | some s => some s
      | Option.none =>
          match findErrClass c.parent with
          | some p => resolvedError fuel p
          | Option.none => Option.none

/-- `errStringToClientError`: the kind whose fixed canonical message is the
given text (message texts are pairwise distinct, so dict and first-match
coincide). -/
def errStringToClientError (s : String) : Option ErrClass :=
  etcd3ErrorClasses.find? (fun c => resolvedError 4 c == some s)

/-- `errCodeToClientError`: the kind with the given numeric category code
among kinds carrying no fixed message. -/
def errCodeToClientError (k : Int) : Option ErrClass :=
  etcd3ErrorClasses.find? (fun c => (resolvedError 4 c).isNone && resolvedCode 4 c == some k)

/-- Python `isinstance` on the class hierarchy: the class itself or any
ancestor matches the target name. -/
def isSubclassOf : Nat → ErrClass → String → Bool
  | 0, _, _ => false
  | fuel + 1, c, target =>
      c.name == target ||
        match findErrClass c.parent with
        | some p => isSubclassOf fuel p target
        | Option.none => false

/-- The retry predicate installed by `Etcd3.__init__`:
`retry_exceptions=(DeadlineExceeded, Unavailable)`, an `isinstance` test. -/
def retryableForEtcd3 (c : ErrClass) : Bool :=
  isSubclassOf 4 c "DeadlineExceeded" || isSubclassOf 4 c "Unavailable"

/-- Claim C4: an error kind is retryable exactly when its numeric category
is DeadlineExceeded (4) or Unavailable (14); every message-refined subtype
inherits its category, so subtypes of the two retryable categories are
retryable and all other kinds are terminal. -/
theorem retryable_iff_deadline_or_unavailable :
    ∀ c ∈ etcd3ErrorClasses,
      retryableForEtcd3 c = true ↔
        (resolvedCode 4 c = some 4 ∨ resolvedCode 4 c = some 14) := by
  decide

/-- Witness: the NoLeader kind (an Unavailable refinement, category 14) is
retryable by the main C4 theorem. -/
theorem retryable_iff_witness :
    retryableForEtcd3 ⟨"NoLeader", "Unavailable", Option.none, some "etcdserver: no leader"⟩ = true ↔
      (resolvedCode 4 ⟨"NoLeader", "Unavailable", Option.none, some "etcdserver: no leader"⟩ = some 4 ∨
       resolvedCode 4 ⟨"NoLeader", "Unavailable", Option.none, some "etcdserver: no leader"⟩ = some 14) :=
  retryable_iff_deadline_or_unavailable
    ⟨"NoLeader", "Unavailable", Option.none, some "etcdserver: no leader"⟩ (by decide)

/-- Dynamically typed Python values flowing through the error decoder. -/
inductive PyVal where
  | pyNone : PyVal
  | pyStr (s : String) : PyVal
  | pyInt (n : Int) : PyVal
deriving DecidableEq

/-- The `GRPCcodeToText` mapping from numeric code to category name. -/
def grpcCodeToTextTable : List (Int × String) :=
  [(0, "OK"), (1, "Canceled"), (2, "Unknown"), (3, "InvalidArgument"),
   (4, "DeadlineExceeded"), (5, "NotFound"), (6, "AlreadyExists"),
   (7, "PermissionDenied"), (8, "ResourceExhausted"), (9, "FailedPrecondition"),
   (10, "Aborted"), (11, "OutOfRange"), (12, "Unimplemented"), (13, "Internal"),
   (14, "Unavailable"), (15, "DataLoss"), (16, "Unauthenticated")]

/-- `GRPCcodeToText.get(v)`: a text only when the key is one of the listed
integers (any other value silently misses). -/
def grpcCodeText : PyVal → Option String
  | PyVal.pyInt n => (grpcCodeToTextTable.find? (fun p => p.1 == n)).map (fun p => p.2)
  | _ => Option.none

/-- A constructed (raised) `Etcd3ClientError` instance: its class, the
instance `error` attribute, the resolved `codeText` and the HTTP status. -/
structure RaisedError where
  cls : ErrClass
  errorMsg : Option String
  codeText : Option String
  status : Nat
deriving DecidableEq

/-- `Etcd3ClientError.__init__(self, code, error, status)`: when the class
carries no fixed message it stores `error.strip()`, which raises
AttributeError unless the `error` argument is actually a string; then it
resolves `codeText` from the `code` argument. -/
def Etcd3ClientError.init (cls : ErrClass) (code error : PyVal) (status : Nat) :
    Except PyErr RaisedError :=
  match resolvedError 4 cls with
  | some fixed => Except.ok ⟨cls, some fixed, grpcCodeText code, status⟩
  | Option.none =>
      match error with
      | PyVal.pyStr s => Except.ok ⟨cls, some s.trim, grpcCodeText code, status⟩
      | _ => Except.error PyErr.attributeError

/-- `_raise_for_status` after message/code extraction: nothing below status
400; otherwise the kind is selected by exact message, then by numeric code
among kinds without a fixed message, else Unknown, and the selected class
is constructed by `raise err(error, code, response.status)` — note the
message is passed into the constructor `code` slot and the numeric code
into its `error` slot, exactly as the source call site does. -/
def raiseForStatus (status : Nat) (error code : PyVal) : Option (Except PyErr RaisedError) :=
  if status < 400 then Option.none
  else
    let byMsg :=
      match error with
      | PyVal.pyStr s => errStringToClientError s
      | _ => Option.none
    let errCls :=
      match byMsg with
      | some c => some c
      | Option.none =>
          match code with
          | PyVal.pyInt k => errCodeToClientError k
          | _ => Option.none
    let errCls := errCls.getD ⟨"Unknown", "Etcd3ClientError", some 2, Option.none⟩
    some (Etcd3ClientError.init errCls error code status)

/-- Claim C3, failing input: for a message matching no fixed text and code
14, the decoder does select the Unavailable kind by numeric code, and the
exact-message path still works — but constructing the selected kind crashes
with AttributeError because the call site passes the message and the code
in swapped constructor positions, so `.strip()` runs on the integer 14;
the claimed typed error carrying the raw message is never produced.  A
status below 400 still raises nothing. -/
theorem raise_for_status_swapped_args_crash :
    errStringToClientError "etcdserver: unexpected failure" = Option.none ∧
    errCodeToClientError 14 =
      some ⟨"Unavailable", "Etcd3ClientError", some 14, Option.none⟩ ∧
    raiseForStatus 503 (PyVal.pyStr "etcdserver: unexpected failure") (PyVal.pyInt 14) =
      some (Except.error PyErr.attributeError) ∧
    raiseForStatus 503 (PyVal.pyStr "etcdserver: no leader") (PyVal.pyInt 14) =
      some (Except.ok ⟨⟨"NoLeader", "Unavailable", Option.none, some "etcdserver: no leader"⟩,
        some "etcdserver: no leader", Option.none, 503⟩) ∧
    raiseForStatus 200 (PyVal.pyStr "etcdserver: unexpected failure") (PyVal.pyInt 14) =
      Option.none := by
  refine ⟨by decide, by decide, by rfl, by rfl, by rfl⟩

/-- Splits a character list on the dot character: the embedding of
`cluster_version.split('.')`. -/
def splitDot : List Char → List (List Char)
  | [] => [[]]
  | ch :: rest =>
      let r := splitDot rest
      if ch = '.' then [] :: r
      else
        match r with
        | [] => [[ch]]
        | g :: gs => (ch :: g) :: gs

/-- Decimal digit value of a character, when it is a digit. -/
def digitVal? (ch : Char) : Option Nat :=
  if '0' ≤ ch ∧ ch ≤ '9' then some (ch.toNat - '0'.toNat) else Option.none

/-- Accumulating decimal reading of a digit list. -/
def digitsToNatAux : Nat → List Char → Option Nat
  | acc, [] => some acc
  | acc, ch :: rest =>
      match digitVal? ch with
      | some d => digitsToNatAux (acc * 10 + d) rest
      | Option.none => Option.none

/-- Python `int(x)` on a decimal component: fails on an empty or non-digit
string. -/
def digitsToNat? : List Char → Option Nat
  | [] => Option.none
  | l => digitsToNatAux 0 l

/-- `tuple(int(x) for x in cluster_version.split('.'))`. -/
def parseVersion (s : String) : Option (List Nat) :=
  (splitDot s.toList).mapM digitsToNat?

/-- Python tuple comparison on integer tuples: lexicographic, a strict
prefix being smaller. -/
def tupleLt : List Nat → List Nat → Bool
  | _, [] => false
  | [], _ :: _ => true
  | a :: as, b :: bs =>
      if a < b then true
      else if b < a then false
      else tupleLt as bs

/-- The version-prefix selection of `Etcd3Client._ensure_version_prefix`:
below (3, 3) the alpha path, below (3, 4) the beta path, otherwise the
stable path. -/
def versionPrefixFor (v : List Nat) : String :=
  if tupleLt v [3, 3] then "/v3alpha"
  else if tupleLt v [3, 4] then "/v3beta"
  else "/v3"

/-- Version negotiation from the reported version text, as
`_ensure_version_prefix` performs it on the `etcdcluster` field. -/
def negotiateVersion (s : String) : Option String :=
  (parseVersion s).map versionPrefixFor

/-- Claim C5: a reported version below 3.3 selects the alpha path, a 3.3.x
version the beta path, and 3.4 or above the stable path; in particular
"3.2.9" negotiates to the alpha path, "3.3.5" to the beta path and "3.5.0"
to the stable path. -/
theorem version_negotiation_selection :
    (∀ a b c : Nat,
      versionPrefixFor [a, b, c] =
        if a < 3 ∨ (a = 3 ∧ b < 3) then "/v3alpha"
        else if a = 3 ∧ b = 3 then "/v3beta"
        else "/v3") ∧
    negotiateVersion "3.2.9" = some "/v3alpha" ∧
    negotiateVersion "3.3.5" = some "/v3beta" ∧
    negotiateVersion "3.5.0" = some "/v3" := by
  refine ⟨?_, by decide, by decide, by decide⟩
  intro a b c
  have h1 : tupleLt [a, b, c] [3, 3] = true ↔ (a < 3 ∨ (a = 3 ∧ b < 3)) := by
    simp only [tupleLt]
    split_ifs <;> simp <;> omega
  have h2 : tupleLt [a, b, c] [3, 4] = true ↔ (a < 3 ∨ (a = 3 ∧ b < 4)) := by
    simp only [tupleLt]
    split_ifs <;> simp <;> omega
  simp only [versionPrefixFor, h1, h2]
  split_ifs <;> first | rfl | omega

/-- The lease-relevant state of an `Etcd3` driver: the current lease id (or
none) and the timestamp of the last lease refresh. -/
structure Etcd3State where
  lease : Option Nat
  lastLeaseRefresh : Nat
deriving DecidableEq

/-- Result of one `_do_refresh_lease` call: the returned flag, the updated
state, and whether the keepalive and grant RPCs were issued. -/
structure RefreshResult where
  ret : Bool
  state : Etcd3State
  keepaliveCalled : Bool
  grantCalled : Bool
deriving DecidableEq

/-- The keepalive step of `_do_refresh_lease`: the lease is cleared when one
existed but `lease_keepalive` reported it gone (no TTL), otherwise kept. -/
def clearedIfGone (keepalive : Nat → Option Nat) (lease : Option Nat) : Option Nat :=
  if truthy lease ∧ ¬ truthy (keepalive (lease.getD 0)) then Option.none else lease

/-- `Etcd3._do_refresh_lease`.  `keepalive` and `grant` stand for the
`lease_keepalive` and `lease_grant` RPCs; `now1` and `now2` are the two
`time.time()` readings (guard check and timestamp recording). -/
def Etcd3.doRefreshLease (keepalive : Nat → Option Nat) (grant : Nat → Nat)
    (ttl loopWait now1 now2 : Nat) (s : Etcd3State) : RefreshResult :=
  if truthy s.lease ∧ s.lastLeaseRefresh + loopWait > now1 then
    ⟨false, s, false, false⟩
  else
    let lease1 := clearedIfGone keepalive s.lease
    let ret := ! truthy lease1
    let lease2 := if ret then some (grant ttl) else lease1
    ⟨ret, ⟨lease2, now2⟩, truthy s.lease, ret⟩

/-- Claim C6: a refresh with a live lease inside the refresh interval is a
no-op returning false with no RPC issued; otherwise the keepalive step runs
when a lease exists (clearing it when reported gone), a new lease with the
configured TTL is granted exactly when none remains, the refresh timestamp
is recorded regardless of outcome, and the returned flag is true exactly
when a new lease was granted during the call. -/
theorem refresh_lease_spec :
    (∀ (keepalive : Nat → Option Nat) (grant : Nat → Nat)
        (ttl loopWait now1 now2 : Nat) (s : Etcd3State),
      truthy s.lease = true → s.lastLeaseRefresh + loopWait > now1 →
      Etcd3.doRefreshLease keepalive grant ttl loopWait now1 now2 s =
        ⟨false, s, false, false⟩) ∧
    (∀ (keepalive : Nat → Option Nat) (grant : Nat → Nat)
        (ttl loopWait now1 now2 : Nat) (s : Etcd3State),
      ¬ (truthy s.lease = true ∧ s.lastLeaseRefresh + loopWait > now1) →
      Etcd3.doRefreshLease keepalive grant ttl loopWait now1 now2 s =
        ⟨! truthy (clearedIfGone keepalive s.lease),
         ⟨if truthy (clearedIfGone keepalive s.lease)
            then clearedIfGone keepalive s.lease
            else some (grant ttl), now2⟩,
         truthy s.lease,
         ! truthy (clearedIfGone keepalive s.lease)⟩) := by
  constructor
  · intro keepalive grant ttl loopWait now1 now2 s h1 h2
    simp [Etcd3.doRefreshLease, h1, h2]
  · intro keepalive grant ttl loopWait now1 now2 s h
    simp only [Etcd3.doRefreshLease, if_neg h]
    cases hk : truthy (clearedIfGone keepalive s.lease) <;> simp [hk]

/-- Witness for C6: a fresh-enough lease is left untouched, and an expired
interval with a dead lease leads to a newly granted lease and timestamp. -/
theorem refresh_lease_spec_witness :
    Etcd3.doRefreshLease (fun _ => some 1) (fun _ => 9) 30 10 105 106 ⟨some 5, 100⟩ =
      ⟨false, ⟨some 5, 100⟩, false, false⟩ ∧
    Etcd3.doRefreshLease (fun _ => Option.none) (fun _ => 9) 30 10 200 201 ⟨some 5, 100⟩ =
      ⟨true, ⟨some 9, 201⟩, true, true⟩ :=
  ⟨refresh_lease_spec.1 (fun _ => some 1) (fun _ => 9) 30 10 105 106 ⟨some 5, 100⟩
      (by decide) (by decide),
   refresh_lease_spec.2 (fun _ => Option.none) (fun _ => 9) 30 10 200 201 ⟨some 5, 100⟩
      (by decide)⟩

/-- Outcome of one retry-wrapped CAS put on the leadership key: a returned
succeeded flag, a LeaseNotFound raise, or any other propagated error. -/
inductive PutOutcome where
  | succeeded (b : Bool) : PutOutcome
  | leaseNotFound : PutOutcome
  | otherError : PutOutcome
deriving DecidableEq

/-- Outcome of `_do_attempt_to_acquire_leader` as seen by its caller. -/
inductive AcqOutcome where
  | returned (b : Bool) : AcqOutcome
  | raisedLeaseNotFound : AcqOutcome
  | raisedOther : AcqOutcome
deriving DecidableEq

/-- Trace of one `_do_attempt_to_acquire_leader` call: its outcome, the
resulting in-memory lease, the lease argument of every CAS put issued (all
with create-revision 0), and how many lease refreshes were requested. -/
structure AcqTrace where
  outcome : AcqOutcome
  finalLease : Option Nat
  casLeaseArgs : List (Option Nat)
  refreshCalls : Nat
deriving DecidableEq

/-- `Etcd3._do_attempt_to_acquire_leader`.  `putCAS lease i` stands for the
retry-wrapped `put(leader_path, name, lease, 0)` on attempt number `i`;
`refresh` stands for `refresh_lease()`, yielding the resulting in-memory
lease or raising a driver failure.  On a first LeaseNotFound the lease is
dropped, refreshed, and the CAS retried exactly once; a second
LeaseNotFound propagates. -/
def Etcd3.doAttemptToAcquireLeader (putCAS : Option Nat → Nat → PutOutcome)
    (refresh : Except Unit (Option Nat)) (permanent : Bool)
    (lease0 : Option Nat) : AcqTrace :=
  let arg1 := if permanent then Option.none else lease0
  match putCAS arg1 0 with
  | PutOutcome.succeeded b => ⟨AcqOutcome.returned b, lease0, [arg1], 0⟩
  | PutOutcome.otherError => ⟨AcqOutcome.raisedOther, lease0, [arg1], 0⟩
  | PutOutcome.leaseNotFound =>
      match refresh with
      | Except.error _ => ⟨AcqOutcome.raisedOther, Option.none, [arg1], 1⟩
      | Except.ok newLease =>
          let arg2 := if permanent then Option.none else newLease
          match putCAS arg2 1 with
          | PutOutcome.succeeded b => ⟨AcqOutcome.returned b, newLease, [arg1, arg2], 1⟩
          | PutOutcome.otherError => ⟨AcqOutcome.raisedOther, newLease, [arg1, arg2], 1⟩
          | PutOutcome.leaseNotFound => ⟨AcqOutcome.raisedLeaseNotFound, newLease, [arg1, arg2], 1⟩

/-- Claim C7: when the first CAS put fails with LeaseNotFound, the lease is
refreshed exactly once, the CAS put is retried exactly once more with the
refreshed lease, and the call returns the succeeded flag of that retry as a
normal value — a false flag (contention) is returned, not raised. -/
theorem acquire_leader_lease_retry
    (putCAS : Option Nat → Nat → PutOutcome) (newLease lease0 : Option Nat)
    (permanent : Bool) (b : Bool)
    (h1 : putCAS (if permanent then Option.none else lease0) 0 = PutOutcome.leaseNotFound)
    (h2 : putCAS (if permanent then Option.none else newLease) 1 = PutOutcome.succeeded b) :
    Etcd3.doAttemptToAcquireLeader putCAS (Except.ok newLease) permanent lease0 =
      ⟨AcqOutcome.returned b, newLease,
       [if permanent then Option.none else lease0,
        if permanent then Option.none else newLease], 1⟩ := by
  simp [Etcd3.doAttemptToAcquireLeader, h1, h2]

/-- Witness for C7: a first CAS failing with LeaseNotFound followed by a
retry that reports contention (false) yields a normal false return after
exactly two CAS puts and one refresh. -/
theorem acquire_leader_lease_retry_witness :
    Etcd3.doAttemptToAcquireLeader
        (fun _ i => if i = 0 then PutOutcome.leaseNotFound else PutOutcome.succeeded false)
        (Except.ok (some 8)) false (some 7) =
      ⟨AcqOutcome.returned false, some 8, [some 7, some 8], 1⟩ :=
  acquire_leader_lease_retry
    (fun _ i => if i = 0 then PutOutcome.leaseNotFound else PutOutcome.succeeded false)
    (some 8) (some 7) false false rfl rfl

/-- Claim C10: when both `create_revision` and `mod_revision` are given, the
`create_revision` comparison takes precedence and `mod_revision` is ignored:
the issued transaction is exactly the one issued with `mod_revision` absent,
and its single comparison targets CREATE. -/
theorem put_create_revision_precedence :
    ∀ (callRpc : String → JsonE → JsonE) (key value : List Nat)
      (lease : Option Int) (c m : Int),
      Etcd3Client.put callRpc key value lease (some c) (some m) =
        Etcd3Client.put callRpc key value lease (some c) Option.none ∧
      Etcd3Client.put callRpc key value lease (some c) (some m) =
        (callRpc "/kv/txn"
          (JsonE.obj
            [("compare", JsonE.arr [JsonE.obj
                [("target", JsonE.str "CREATE"),
                 ("create_revision", JsonE.num c),
                 ("key", JsonE.str (base64_encode key))]]),
             ("success", JsonE.arr [JsonE.obj
                [("request_put", JsonE.obj (putFields key value lease))]])])).get
          "succeeded" := by
  intro callRpc key value lease c m
  exact ⟨rfl, rfl⟩

/-- Modelled from the spec: `patroni.dcs.Member` (external value type, not
under the driver source). A member record: its revision, name, session and
attribute map; the snapshot loader synthesizes one with unknown attributes
and sentinel revision -1 when the leader value matches no member. -/
structure Member where
  index : Int
  name : String
  session : Option Nat
  data : List (String × String)
deriving DecidableEq

/-- Modelled from the spec: `patroni.dcs.Leader` (external value type):
revision of the leadership key, its lease, and the resolved member. -/
structure Leader where
  index : Int
  session : Option Nat
  member : Member
deriving DecidableEq

/-- Modelled from the spec: the name of a leader record is the name of its
resolved member (the leader key string value). -/
def Leader.leaderName (l : Leader) : String := l.member.name

/-- A decoded key-value node as `_load_cluster` indexes it: decoded key and
value, lease, and mod-revision. -/
structure KVNode where
  key : String
  value : String
  lease : Option Nat
  mod_revision : Int
deriving DecidableEq

/-- The placeholder `Member(-1, leader['value'], None, dict())` built in
`_load_cluster` before resolution. -/
def placeholderMember (v : String) : Member := ⟨-1, v, Option.none, []⟩

/-- The member resolution of `_load_cluster`:
`([m for m in members if m.name == leader['value']] or [member])[0]`. -/
def resolveLeaderMember (members : List Member) (v : String) : Member :=
  match members.filter (fun m => m.name == v) with
  | [] => placeholderMember v
  | m :: _ => m

/-- The leader-record assembly of `_load_cluster`: when a leadership node
was scanned, build `Leader(mod_revision, lease, resolved member)`. -/
def loadLeader (members : List Member) (leaderNode : Option KVNode) : Option Leader :=
  match leaderNode with
  | Option.none => Option.none
  | some n => some ⟨n.mod_revision, n.lease, resolveLeaderMember members n.value⟩

/-- Claim C9: the leader member is resolved by matching the leadership key
string value against the member list by name; a unique match yields that
member, and no match yields a structurally complete leader record with a
synthesized placeholder member of sentinel revision -1 — never a failure. -/
theorem load_cluster_leader_resolution :
    (∀ (members : List Member) (n : KVNode) (m0 : Member),
      members.filter (fun m => m.name == n.value) = [m0] →
      loadLeader members (some n) = some ⟨n.mod_revision, n.lease, m0⟩) ∧
    (∀ (members : List Member) (n : KVNode),
      members.filter (fun m => m.name == n.value) = [] →
      loadLeader members (some n) =
        some ⟨n.mod_revision, n.lease, ⟨-1, n.value, Option.none, []⟩⟩) := by
  constructor
  · intro members n m0 h
    simp [loadLeader, resolveLeaderMember, h]
  · intro members n h
    simp [loadLeader, resolveLeaderMember, placeholderMember, h]

/-- Witness for C9: a unique matching member is resolved exactly, and an
unmatched leader value yields the synthesized placeholder member. -/
theorem load_cluster_leader_resolution_witness :
    loadLeader [⟨5, "nodeA", some 11, []⟩] (some ⟨"leader", "nodeA", some 11, 42⟩) =
      some ⟨42, some 11, ⟨5, "nodeA", some 11, []⟩⟩ ∧
    loadLeader [⟨5, "nodeA", some 11, []⟩] (some ⟨"leader", "nodeZ", Option.none, 42⟩) =
      some ⟨42, Option.none, ⟨-1, "nodeZ", Option.none, []⟩⟩ :=
  ⟨load_cluster_leader_resolution.1 [⟨5, "nodeA", some 11, []⟩]
      ⟨"leader", "nodeA", some 11, 42⟩ ⟨5, "nodeA", some 11, []⟩ (by decide),
   load_cluster_leader_resolution.2 [⟨5, "nodeA", some 11, []⟩]
      ⟨"leader", "nodeZ", Option.none, 42⟩ (by decide)⟩

/-- `Etcd3Client.build_range_request`: the key field, plus the range end
when one is given and non-empty (Python truthiness of a byte string). -/
def buildRangeRequest (key : List Nat) (range_end : Option (List Nat)) : List (String × JsonE) :=
  let fields := [("key", JsonE.str (base64_encode key))]
  match range_end with
  | some r => if r.isEmpty then fields else fields ++ [("range_end", JsonE.str (base64_encode r))]
  | Option.none => fields

/-- `Etcd3Client.deleterange(key, range_end, mod_revision)`: a plain
`/kv/deleterange` without a revision constraint, otherwise a `/kv/txn`
whose single comparison gates the delete on the key mod-revision, with the
transaction result projected to its succeeded flag. -/
def Etcd3Client.deleterange (callRpc : String → JsonE → JsonE)
    (key : List Nat) (range_end : Option (List Nat)) (mod_revision : Option Int) : JsonE :=
  let fields := buildRangeRequest key range_end
  match mod_revision with
  | Option.none => callRpc "/kv/deleterange" (JsonE.obj fields)
  | some m =>
      let compare := [("target", JsonE.str "MOD"),
                      ("mod_revision", JsonE.num m),
                      ("key", JsonE.str (base64_encode key))]
      (callRpc "/kv/txn"
        (JsonE.obj [("compare", JsonE.arr [JsonE.obj compare]),
                    ("success", JsonE.arr
                      [JsonE.obj [("request_delete_range", JsonE.obj fields)]])])).get
        "succeeded"

/-- Modelled from the spec: the in-memory cluster snapshot, as far as
`delete_leader` consults it — only the optional leader record is read. -/
structure ClusterView where
  leader : Option Leader
deriving DecidableEq

/-- `Etcd3.delete_leader`: only when the current in-memory cluster view
shows a leader record naming this process does it issue
`deleterange(leader_path, mod_revision=cluster.leader.index)`; in every
other state no delete is issued (result none). -/
def Etcd3.delete_leader (callRpc : String → JsonE → JsonE) (selfName : String)
    (leaderPath : List Nat) (cluster : Option ClusterView) : Option JsonE :=
  match cluster with
  | Option.none => Option.none
  | some cl =>
      match cl.leader with
      | Option.none => Option.none
      | some ldr =>
          if Leader.leaderName ldr == selfName then
            some (Etcd3Client.deleterange callRpc leaderPath Option.none (some ldr.index))
          else Option.none

/-- Claim C8: `delete_leader` issues a delete only when the in-memory view
shows a leader record named like this process, and that delete is a CAS
delete: a `/kv/txn` whose single comparison gates on the last-observed
leadership-key mod-revision; with no cluster view, no leader record, or a
differently named leader, no delete is performed. -/
theorem delete_leader_cas_guard :
    (∀ (callRpc : String → JsonE → JsonE) (selfName : String) (leaderPath : List Nat)
        (cl : ClusterView) (ldr : Leader),
      cl.leader = some ldr → Leader.leaderName ldr = selfName →
      Etcd3.delete_leader callRpc selfName leaderPath (some cl) =
        some ((callRpc "/kv/txn"
          (JsonE.obj [("compare", JsonE.arr [JsonE.obj
              [("target", JsonE.str "MOD"),
               ("mod_revision", JsonE.num ldr.index),
               ("key", JsonE.str (base64_encode leaderPath))]]),
           ("success", JsonE.arr [JsonE.obj
              [("request_delete_range",
                JsonE.obj [("key", JsonE.str (base64_encode leaderPath))])]])])).get
          "succeeded")) ∧
    (∀ (callRpc : String → JsonE → JsonE) (selfName : String) (leaderPath : List Nat),
      Etcd3.delete_leader callRpc selfName leaderPath Option.none = Option.none) ∧
    (∀ (callRpc : String → JsonE → JsonE) (selfName : String) (leaderPath : List Nat)
        (cl : ClusterView),
      cl.leader = Option.none →
      Etcd3.delete_leader callRpc selfName leaderPath (some cl) = Option.none) ∧
    (∀ (callRpc : String → JsonE → JsonE) (selfName : String) (leaderPath : List Nat)
        (cl : ClusterView) (ldr : Leader),
      cl.leader = some ldr → Leader.leaderName ldr ≠ selfName →
      Etcd3.delete_leader callRpc selfName leaderPath (some cl) = Option.none) := by
  refine ⟨?_, ?_, ?_, ?_⟩
  · intro callRpc selfName leaderPath cl ldr h1 h2
    simp [Etcd3.delete_leader, Etcd3Client.deleterange, buildRangeRequest, h1, h2]
  · intro callRpc selfName leaderPath
    rfl
  · intro callRpc selfName leaderPath cl h1
    simp [Etcd3.delete_leader, h1]
  · intro callRpc selfName leaderPath cl ldr h1 h2
    simp [Etcd3.delete_leader, h1, h2]

/-- Witness for C8: a view naming this process as leader yields the CAS
delete result, and a differently named leader yields no delete. -/
theorem delete_leader_cas_guard_witness :
    Etcd3.delete_leader (fun _ _ => JsonE.obj [("succeeded", JsonE.boolean true)]) "me"
        [107] (some ⟨some ⟨9, some 3, ⟨7, "me", some 3, []⟩⟩⟩) =
      some (JsonE.boolean true) ∧
    Etcd3.delete_leader (fun _ _ => JsonE.obj [("succeeded", JsonE.boolean true)]) "me"
        [107] (some ⟨some ⟨9, some 3, ⟨7, "other", some 3, []⟩⟩⟩) = Option.none :=
  ⟨delete_leader_cas_guard.1 (fun _ _ => JsonE.obj [("succeeded", JsonE.boolean true)]) "me"
      [107] ⟨some ⟨9, some 3, ⟨7, "me", some 3, []⟩⟩⟩ ⟨9, some 3, ⟨7, "me", some 3, []⟩⟩
      rfl rfl,
   delete_leader_cas_guard.2.2.2 (fun _ _ => JsonE.obj [("succeeded", JsonE.boolean true)]) "me"
      [107] ⟨some ⟨9, some 3, ⟨7, "other", some 3, []⟩⟩⟩ ⟨9, some 3, ⟨7, "other", some 3, []⟩⟩
      rfl (by decide)⟩
